import Mathlib

/-!
Verification development for the AudioTransLocal transcription engine.

This file gives a shallow embedding, in Lean 4, of the core components of the
repository and proves properties of them:

* the transcription job state machine (`src/app/models/transcription.py`),
* the chunked transcription worker (`src/app/workers/transcription_worker.py`),
* the model download worker (`src/app/workers/model_download_worker.py`),
* the Whisper model manager (`src/app/services/whisper_model_manager.py`).

Modelling conventions: Python floats carrying audio durations are embedded as
rationals; fallible Python calls (calls that may raise) are embedded as
`Except String` values or as function parameters returning `Except String`;
the file system is embedded as a function from path to optional file content;
external collaborators (ffmpeg decoding, the Whisper model, SHA-256) are
abstracted as function parameters, since their internals are outside the
repository.  Qt signal emissions and log statements are not modelled; neither
are wall-clock timestamps.
-/

namespace AudioTransLocal

/-!
Part 1 — Transcription job state machine, from `src/app/models/transcription.py`.
-/

/-- The eight workflow states of `TranscriptionState` (transcription.py lines 15-28). -/
inductive TranscriptionState where
  | READY
  | PREPARING
  | DETECTING_LANGUAGE
  | TRANSCRIBING
  | POST_PROCESSING
  | COMPLETED
  | FAILED
  | CANCELLED
deriving DecidableEq, Repr

open TranscriptionState in
/-- The transition table `VALID_TRANSITIONS` (transcription.py lines 72-108).
Python stores a dict from state to a set of states; we embed it as a function
from state to the list of allowed target states. -/
def VALID_TRANSITIONS : TranscriptionState → List TranscriptionState
  | READY => [PREPARING, CANCELLED]
  | PREPARING => [DETECTING_LANGUAGE, TRANSCRIBING, FAILED, CANCELLED]
  | DETECTING_LANGUAGE => [TRANSCRIBING, FAILED, CANCELLED]
  | TRANSCRIBING => [POST_PROCESSING, COMPLETED, FAILED, CANCELLED]
  | POST_PROCESSING => [COMPLETED, FAILED, CANCELLED]
  | COMPLETED => [READY]
  | FAILED => [READY]
  | CANCELLED => [READY]

/-- The `TranscriptionProgress` dataclass (transcription.py lines 45-60).
The `timestamp` field (wall-clock `datetime.now()`) is not modelled. -/
structure TranscriptionProgress where
  state : TranscriptionState
  percentage : ℤ := 0
  current_chunk : ℤ := 0
  total_chunks : ℤ := 0
  estimated_time_remaining : Option ℚ := none
  message : String := ""
deriving DecidableEq, Repr

/-- The mutable fields of `TranscriptionStateMachine` (transcription.py lines 110-119). -/
structure TranscriptionStateMachine where
  _current_state : TranscriptionState
  _progress : TranscriptionProgress
  _state_history : List TranscriptionProgress
deriving DecidableEq, Repr

/-- The constructor `__init__` (transcription.py lines 110-119). -/
def TranscriptionStateMachine.init (initial_state : TranscriptionState) :
    TranscriptionStateMachine :=
  let p : TranscriptionProgress := { state := initial_state }
  { _current_state := initial_state, _progress := p, _state_history := [p] }

/-- The method `can_transition_to` (transcription.py lines 152-163). -/
def TranscriptionStateMachine.can_transition_to (m : TranscriptionStateMachine)
    (new_state : TranscriptionState) : Bool :=
  (VALID_TRANSITIONS m._current_state).contains new_state

/-- The method `transition_to` (transcription.py lines 165-208).  Python
mutates `self` in place and raises `ValueError` on an invalid transition; we
embed it as a function returning the post-call machine together with either
`Except.ok true` (the Python return value) or `Except.error` (the raised
exception).  The raise happens before any mutation, so on the error branch the
machine is returned unchanged. -/
def TranscriptionStateMachine.transition_to (m : TranscriptionStateMachine)
    (new_state : TranscriptionState) (percentage : ℤ) (message : String)
    (current_chunk : ℤ) (total_chunks : ℤ) (estimated_time_remaining : Option ℚ) :
    TranscriptionStateMachine × Except String Bool :=
  if ¬ m.can_transition_to new_state then
    (m, Except.error "Invalid transition")
  else
    let p : TranscriptionProgress :=
      { state := new_state
        percentage := max 0 (min 100 percentage)
        current_chunk := current_chunk
        total_chunks := total_chunks
        estimated_time_remaining := estimated_time_remaining
        message := message }
    ({ _current_state := new_state
       _progress := p
       _state_history := m._state_history ++ [p] },
     Except.ok true)

/-- C4: for every current state and every target not in the allowed-transition
set of the current state, `transition_to` fails with an error and leaves the
machine — its current state and its current progress snapshot — unchanged. -/
theorem transition_to_invalid_leaves_state_unchanged
    (m : TranscriptionStateMachine) (t : TranscriptionState)
    (p cc tc : ℤ) (msg : String) (etr : Option ℚ)
    (h : m.can_transition_to t = false) :
    (m.transition_to t p msg cc tc etr).1 = m ∧
    (m.transition_to t p msg cc tc etr).2 = Except.error "Invalid transition" := by
  simp [TranscriptionStateMachine.transition_to, h]

/-- Witness for C4: from `READY`, the target `TRANSCRIBING` is not allowed;
the call fails and the machine is unchanged. -/
theorem transition_to_invalid_leaves_state_unchanged_witness :
    (TranscriptionStateMachine.init .READY).can_transition_to .TRANSCRIBING = false ∧
    ((TranscriptionStateMachine.init .READY).transition_to .TRANSCRIBING 10 "x" 0 0 none).1
      = TranscriptionStateMachine.init .READY ∧
    ((TranscriptionStateMachine.init .READY).transition_to .TRANSCRIBING 10 "x" 0 0 none).2
      = Except.error "Invalid transition" := by
  refine ⟨by decide, ?_, ?_⟩
  · exact (transition_to_invalid_leaves_state_unchanged _ _ _ _ _ _ _ (by decide)).1
  · exact (transition_to_invalid_leaves_state_unchanged _ _ _ _ _ _ _ (by decide)).2

/-- C10: no state is a member of its own allowed-transition set; hence every
successful `transition_to` strictly changes the current state, and calling
`transition_to` with the current state as target always fails — so the
progress fields can never be replaced without a state change. -/
theorem no_self_transitions :
    (∀ s : TranscriptionState, (VALID_TRANSITIONS s).contains s = false) ∧
    (∀ (m : TranscriptionStateMachine) (t : TranscriptionState) (p cc tc : ℤ)
        (msg : String) (etr : Option ℚ) (m2 : TranscriptionStateMachine),
      m.transition_to t p msg cc tc etr = (m2, Except.ok true) →
      m2._current_state ≠ m._current_state) ∧
    (∀ (m : TranscriptionStateMachine) (p cc tc : ℤ) (msg : String) (etr : Option ℚ),
      (m.transition_to m._current_state p msg cc tc etr).2
        = Except.error "Invalid transition") := by
  have hirr : ∀ s : TranscriptionState, (VALID_TRANSITIONS s).contains s = false := by
    intro s
    cases s <;> rfl
  refine ⟨hirr, ?_, ?_⟩
  · intro m t p cc tc msg etr m2 hcall
    by_cases hc : m.can_transition_to t
    · have h1 : m2._current_state = t := by
        simp [TranscriptionStateMachine.transition_to, hc] at hcall
        rw [← hcall]
      intro hEq
      rw [h1] at hEq
      have : (VALID_TRANSITIONS m._current_state).contains t = true := hc
      rw [hEq] at this
      rw [hirr m._current_state] at this
      exact Bool.false_ne_true this
    · simp [TranscriptionStateMachine.transition_to, hc] at hcall
  · intro m p cc tc msg etr
    have hc : m.can_transition_to m._current_state = false := by
      unfold TranscriptionStateMachine.can_transition_to
      exact hirr m._current_state
    simp [TranscriptionStateMachine.transition_to, hc]

/-- Witness for C10: a concrete successful transition `READY → PREPARING`
changes the state, and a concrete self-transition attempt from `READY` fails. -/
theorem no_self_transitions_witness :
    ((TranscriptionStateMachine.init .READY).transition_to .PREPARING 0 "" 0 0 none).1._current_state
      ≠ (TranscriptionStateMachine.init .READY)._current_state ∧
    ((TranscriptionStateMachine.init .READY).transition_to .READY 0 "" 0 0 none).2
      = Except.error "Invalid transition" := by
  constructor
  · exact no_self_transitions.2.1 (TranscriptionStateMachine.init .READY) .PREPARING
      0 0 0 "" none _ (by rfl)
  · exact no_self_transitions.2.2 (TranscriptionStateMachine.init .READY) 0 0 0 "" none

/-!
Part 2 — Transcription worker, from `src/app/workers/transcription_worker.py`.

The worker calls out to ffmpeg (audio decoding) and to the Whisper model
(language detection, transcription).  These collaborators are embedded as
function parameters; a parameter returning `Except String` models a Python
call that either returns a value or raises an exception with a message.
-/

/-- Raw PCM audio bytes, as produced by `_extract_audio_chunk`. -/
abbrev PCM := List ℕ

/-- The sample-window computation of `_detect_language`
(transcription_worker.py lines 174-179): start time and sample duration, in
seconds, of the window handed to language detection. -/
def detection_sample_window (duration : ℚ) : ℚ × ℚ :=
  if duration < 120 then (0, min duration 120)
  else (duration / 2 - 60, 120)

/-- The method `_extract_audio_chunk` (transcription_worker.py lines 241-264):
runs ffmpeg on the given window and wraps any failure in the message the
raised `RuntimeError` carries. -/
def _extract_audio_chunk (ffmpeg_run : ℚ → ℚ → Except String PCM)
    (start_time duration : ℚ) : Except String PCM :=
  match ffmpeg_run start_time duration with
  | Except.ok buf => Except.ok buf
  | Except.error e => Except.error ("Audio extraction failed: " ++ e)

/-- The method `_whisper_detect_language` (transcription_worker.py lines
281-330).  The body loads a Whisper model and asks it for a language code; the
whole body is wrapped in a try whose two handlers (`ImportError` and
`Exception`) both return the default language code, so we embed the body as
one `Except String String` value.  This function itself never raises. -/
def _whisper_detect_language (whisper_attempt : Except String String) : String :=
  match whisper_attempt with
  | Except.ok detected_language => detected_language
  | Except.error _ => "en"

/-- Outcome of the Whisper transcription body inside
`_whisper_transcribe_with_language`: a transcribed text, an `ImportError`
(Whisper not installed), or any other raised exception. -/
inductive WhisperOutcome where
  | ok (text : String)
  | importMissing
  | raised (msg : String)
deriving DecidableEq, Repr

/-- Chunk length in seconds, computed by the worker as
`len(audio_buffer) / (16000 * 2)` (16 kHz, 16-bit mono PCM). -/
def chunk_seconds (audio_buffer : PCM) : ℚ :=
  (audio_buffer.length : ℚ) / (16000 * 2)

/-- Python renders the chunk seconds with one-decimal float formatting; the
exact rendering is immaterial to every property proved here, so the rational
is rendered with `toString`. -/
def format_seconds (q : ℚ) : String := toString q

/-- The error-marker text produced by the `Exception` handler of
`_whisper_transcribe_with_language` (transcription_worker.py lines 392-397). -/
def error_marker (audio_buffer : PCM) (e : String) : String :=
  "[Error transcribing " ++ format_seconds (chunk_seconds audio_buffer)
    ++ "s chunk: " ++ e ++ "]"

/-- The placeholder text produced by the `ImportError` handler of
`_whisper_transcribe_with_language` (transcription_worker.py lines 385-390). -/
def placeholder_text (audio_buffer : PCM) (language : String) : String :=
  "[Transcription placeholder - " ++ format_seconds (chunk_seconds audio_buffer)
    ++ "s audio chunk in " ++ language ++ "]"

/-- The method `_whisper_transcribe_with_language` (transcription_worker.py
lines 332-397).  Every exception raised by the body is caught: an
`ImportError` yields a placeholder text, any other exception yields an inline
error marker; the function never raises. -/
def _whisper_transcribe_with_language (whisper_attempt : PCM → WhisperOutcome)
    (audio_buffer : PCM) (language : String) : String :=
  match whisper_attempt audio_buffer with
  | WhisperOutcome.ok text => text
  | WhisperOutcome.importMissing => placeholder_text audio_buffer language
  | WhisperOutcome.raised e => error_marker audio_buffer e

/-- The method `_detect_language` (transcription_worker.py lines 162-193):
computes the sample window, extracts the sample (a fallible call whose
failure propagates, wrapped in the `RuntimeError` message of line 193), and
hands the sample to `_whisper_detect_language`, which never raises. -/
def _detect_language (duration : ℚ)
    (ffmpeg_run : ℚ → ℚ → Except String PCM)
    (whisper_detect_attempt : PCM → Except String String) : Except String String :=
  match _extract_audio_chunk ffmpeg_run
      (detection_sample_window duration).1 (detection_sample_window duration).2 with
  | Except.error e => Except.error ("Language detection failed: " ++ e)
  | Except.ok audio_buffer =>
      Except.ok (_whisper_detect_language (whisper_detect_attempt audio_buffer))

/-- C5: the language-detection sampling policy.  For total duration below 120
seconds the sample starts at second 0 and covers the whole file; otherwise it
is a 120-second window starting at `duration / 2 - 60`. -/
theorem detection_sampling_policy (duration : ℚ) :
    (duration < 120 → detection_sample_window duration = (0, duration)) ∧
    (120 ≤ duration → detection_sample_window duration = (duration / 2 - 60, 120)) := by
  constructor
  · intro h
    have hmin : min duration 120 = duration := min_eq_left (le_of_lt h)
    simp [detection_sample_window, h, hmin]
  · intro h
    have hnot : ¬ duration < 120 := not_lt.mpr h
    simp [detection_sample_window, hnot]

/-- Witness for C5: a 90-second file is sampled whole from second 0; a
1000-second file gets the centered window starting at second 440. -/
theorem detection_sampling_policy_witness :
    detection_sample_window 90 = (0, 90) ∧
    detection_sample_window 1000 = (440, 120) := by
  constructor
  · exact (detection_sampling_policy 90).1 (by norm_num)
  · have h := (detection_sampling_policy 1000).2 (by norm_num)
    rw [h]
    norm_num [Prod.ext_iff]

/-- Counterexample for C3: for a 300-second file, whole-file sampling does not
apply — 300 is not below the 120-second threshold, and the computed sample is
exactly the centered window starting at second 90 of length 120 (spanning
seconds 90 to 210), with a nonzero start. -/
theorem detection_sample_300_counterexample :
    ¬ (300 : ℚ) < 120 ∧
    detection_sample_window 300 = (90, 120) ∧
    (detection_sample_window 300).1 ≠ 0 := by
  refine ⟨by norm_num, ?_, ?_⟩
  · simp [detection_sample_window]
    norm_num [Prod.ext_iff]
  · simp [detection_sample_window]
    norm_num

/-- C3 amended: for a 300-second file the centered window is used — the
sample starts at second 90 and lasts 120 seconds, spanning seconds 90 to 210;
for a 1000-second file the sample starts at second 440 and spans seconds 440
to 560. -/
theorem detection_sample_300_and_1000 :
    detection_sample_window 300 = (90, 120) ∧
    (90 : ℚ) + 120 = 210 ∧
    detection_sample_window 1000 = (440, 120) ∧
    (440 : ℚ) + 120 = 560 := by
  refine ⟨?_, by norm_num, ?_, by norm_num⟩
  · simp [detection_sample_window]
    norm_num [Prod.ext_iff]
  · simp [detection_sample_window]
    norm_num [Prod.ext_iff]

/-!
Part 3 — Chunked transcription and the worker run loop, from
`src/app/workers/transcription_worker.py` lines 77-117 and 195-239.
-/

/-- The chunk size of `_transcribe_in_chunks` (transcription_worker.py line
208): 600 seconds. -/
def CHUNK_DURATION : ℚ := 600

/-- The chunk count of `_transcribe_in_chunks` (transcription_worker.py line
209): `ceil(duration / chunk_duration)`. -/
def num_chunks (duration : ℚ) : ℕ := (⌈duration / CHUNK_DURATION⌉).toNat

/-- The per-chunk loop of `_transcribe_in_chunks` (transcription_worker.py
lines 216-234), over the list of remaining chunk indices.  `acc` is the text
written to the transcript file so far; an extraction failure propagates as an
exception (the partially written file is left behind by Python, but the
method raises, which is what the `Except.error` models). -/
def transcribe_chunks_loop (duration : ℚ) (ffmpeg_run : ℚ → ℚ → Except String PCM)
    (whisper_attempt : PCM → WhisperOutcome) (language : String) (n : ℕ) :
    List ℕ → String → Except String String
  | [], acc => Except.ok acc
  | i :: rest, acc =>
    match _extract_audio_chunk ffmpeg_run ((i : ℚ) * CHUNK_DURATION)
        (min CHUNK_DURATION (duration - (i : ℚ) * CHUNK_DURATION)) with
    | Except.error e => Except.error e
    | Except.ok audio_buffer =>
      let text := _whisper_transcribe_with_language whisper_attempt audio_buffer language
      transcribe_chunks_loop duration ffmpeg_run whisper_attempt language n rest
        (acc ++ text ++ (if i < n - 1 then "\n\n" else ""))

/-- The method `_transcribe_in_chunks` (transcription_worker.py lines
195-239): runs the chunk loop over indices `0, ..., num_chunks - 1` starting
from an empty transcript, and wraps any raised exception in the
`RuntimeError` message of line 239. -/
def _transcribe_in_chunks (duration : ℚ) (ffmpeg_run : ℚ → ℚ → Except String PCM)
    (whisper_attempt : PCM → WhisperOutcome) (language : String) : Except String String :=
  match transcribe_chunks_loop duration ffmpeg_run whisper_attempt language
      (num_chunks duration) (List.range (num_chunks duration)) "" with
  | Except.error e => Except.error ("Chunked transcription failed: " ++ e)
  | Except.ok transcript => Except.ok transcript

/-- The text the loop writes for chunk `i` when every extraction succeeds and
`buf` gives the PCM bytes ffmpeg returns for a window: the (never-raising)
result of `_whisper_transcribe_with_language` on the window starting at
`i * 600` of length `min 600 (duration - i * 600)`. -/
def chunk_text (duration : ℚ) (buf : ℚ → ℚ → PCM)
    (whisper_attempt : PCM → WhisperOutcome) (language : String) (i : ℕ) : String :=
  _whisper_transcribe_with_language whisper_attempt
    (buf ((i : ℚ) * CHUNK_DURATION)
      (min CHUNK_DURATION (duration - (i : ℚ) * CHUNK_DURATION)))
    language

/-- Chunk texts joined with a separator between consecutive chunks and none
after the last — the shape of the transcript file the loop produces. -/
def join_with_separator (sep : String) : List String → String
  | [] => ""
  | [t] => t
  | t :: t2 :: ts => t ++ sep ++ join_with_separator sep (t2 :: ts)

/-- Overall outcome of `TranscriptionWorker.run` (transcription_worker.py
lines 77-117): the `finished` signal with the transcript, or the `error`
signal.  The cosmetic rewriting of `_format_error_message` is not modelled;
only the raw exception message is carried. -/
inductive RunOutcome where
  | finished (transcript : String)
  | errored (message : String)
deriving DecidableEq, Repr

/-- Discriminator: did the run abort with an error signal? -/
def RunOutcome.isErrored : RunOutcome → Bool
  | RunOutcome.finished _ => false
  | RunOutcome.errored _ => true

/-- The method `run` (transcription_worker.py lines 77-117): duration probe,
then language detection, then chunked transcription; each step re-raises with
its own message prefix and any exception reaches the outer handler, which
emits the error signal.  `probe_duration` stands for `_get_audio_duration`. -/
def worker_run (probe_duration : Except String ℚ)
    (ffmpeg_run : ℚ → ℚ → Except String PCM)
    (whisper_detect_attempt : PCM → Except String String)
    (whisper_transcribe_attempt : PCM → WhisperOutcome) : RunOutcome :=
  match probe_duration with
  | Except.error e => RunOutcome.errored ("Failed to analyze audio file: " ++ e)
  | Except.ok duration =>
    match _detect_language duration ffmpeg_run whisper_detect_attempt with
    | Except.error e => RunOutcome.errored ("Language detection failed: " ++ e)
    | Except.ok language =>
      match _transcribe_in_chunks duration ffmpeg_run whisper_transcribe_attempt language with
      | Except.error e => RunOutcome.errored ("Transcription processing failed: " ++ e)
      | Except.ok transcript => RunOutcome.finished transcript

/-- Helper: `num_chunks` is positive for a positive duration. -/
theorem num_chunks_pos (duration : ℚ) (hd : 0 < duration) : 0 < num_chunks duration := by
  have h1 : (0 : ℤ) < ⌈duration / CHUNK_DURATION⌉ := by
    apply Int.ceil_pos.mpr
    have : (0 : ℚ) < CHUNK_DURATION := by norm_num [CHUNK_DURATION]
    positivity
  unfold num_chunks
  omega

/-- Helper: a 1200-second file has 2 chunks. -/
theorem num_chunks_1200 : num_chunks 1200 = 2 := by
  have h : (⌈(1200 : ℚ) / 600⌉ : ℤ) = 2 := by
    rw [Int.ceil_eq_iff]
    norm_num
  simp [num_chunks, CHUNK_DURATION, h]

/-- Helper: a 1500-second file has 3 chunks. -/
theorem num_chunks_1500 : num_chunks 1500 = 3 := by
  have h : (⌈(1500 : ℚ) / 600⌉ : ℤ) = 3 := by
    rw [Int.ceil_eq_iff]
    norm_num
  simp [num_chunks, CHUNK_DURATION, h]

/-- Helper: `join_with_separator` peels one element off a nonempty tail. -/
theorem join_with_separator_cons (sep a : String) (l : List String) (h : l ≠ []) :
    join_with_separator sep (a :: l) = a ++ sep ++ join_with_separator sep l := by
  cases l with
  | nil => exact absurd rfl h
  | cons b bs => rfl

/-- Helper: when extraction fails, the loop raises on its first chunk. -/
theorem transcribe_chunks_loop_extract_error (duration : ℚ)
    (whisper_attempt : PCM → WhisperOutcome) (language : String) (n : ℕ)
    (m : String) (is : List ℕ) (acc : String) (hne : is ≠ []) :
    transcribe_chunks_loop duration (fun _ _ => Except.error m) whisper_attempt language n is acc
      = Except.error ("Audio extraction failed: " ++ m) := by
  cases is with
  | nil => exact absurd rfl hne
  | cons i rest => simp [transcribe_chunks_loop, _extract_audio_chunk]

/-- Helper: when every extraction succeeds, the loop over the index range
`k, ..., n-1` appends the chunk texts joined by the blank-line separator. -/
theorem transcribe_chunks_loop_ok (duration : ℚ) (buf : ℚ → ℚ → PCM)
    (whisper_attempt : PCM → WhisperOutcome) (language : String) (n : ℕ) :
    ∀ (len k : ℕ) (acc : String), k + len = n → 0 < len →
      transcribe_chunks_loop duration (fun s l => Except.ok (buf s l))
          whisper_attempt language n (List.range' k len) acc
        = Except.ok (acc ++ join_with_separator "\n\n"
            ((List.range' k len).map (chunk_text duration buf whisper_attempt language))) := by
  intro len
  induction len with
  | zero => intro k acc hkn h0; omega
  | succ m ih =>
    intro k acc hkn h0
    rw [List.range'_succ]
    rcases Nat.eq_zero_or_pos m with hm0 | hmpos
    · subst hm0
      have hklt : ¬ k < n - 1 := by omega
      simp only [transcribe_chunks_loop, _extract_audio_chunk, List.range'_zero,
        List.map_cons, List.map_nil]
      rw [if_neg hklt]
      simp [join_with_separator, chunk_text, String.append_empty]
    · have hklt : k < n - 1 := by omega
      simp only [transcribe_chunks_loop, _extract_audio_chunk, List.map_cons]
      rw [if_pos hklt]
      rw [ih (k + 1) _ (by omega) hmpos]
      have hne : (List.range' (k + 1) m).map
          (chunk_text duration buf whisper_attempt language) ≠ [] := by
        simp only [ne_eq, List.map_eq_nil_iff]
        rw [← ne_eq, List.range'_ne_nil]
        omega
      rw [join_with_separator_cons _ _ _ hne]
      simp [chunk_text, String.append_assoc]

/-- Counterexample for C1: a per-chunk decode (extraction) failure is not
recovered — for a 1200-second file whose very first chunk fails to decode,
`_transcribe_in_chunks` raises and the job aborts instead of writing a
placeholder and continuing. -/
theorem chunk_decode_error_aborts_counterexample :
    _transcribe_in_chunks 1200 (fun _ _ => Except.error "decode failure")
      (fun _ => WhisperOutcome.ok "recognized text") "en"
      = Except.error "Chunked transcription failed: Audio extraction failed: decode failure" := by
  unfold _transcribe_in_chunks
  rw [transcribe_chunks_loop_extract_error 1200 _ "en" (num_chunks 1200) "decode failure"
    (List.range (num_chunks 1200)) "" (by simp [num_chunks_1200])]
  rfl

/-- C1 amended: a chunk-level model error (any exception raised by the Whisper
transcription call) is caught and converted to an inline error marker at that
chunk position, and the executor continues through all chunks — the job does
not abort.  A chunk-level decode (extraction) failure, by contrast, is not
recovered: it propagates and aborts the whole job (see the counterexample). -/
theorem chunk_model_errors_recovered (duration : ℚ) (hd : 0 < duration)
    (buf : ℚ → ℚ → PCM) (whisper_attempt : PCM → WhisperOutcome) (language : String) :
    _transcribe_in_chunks duration (fun s l => Except.ok (buf s l)) whisper_attempt language
      = Except.ok (join_with_separator "\n\n"
          ((List.range (num_chunks duration)).map
            (chunk_text duration buf whisper_attempt language))) ∧
    (∀ (i : ℕ) (e : String),
      whisper_attempt (buf ((i : ℚ) * CHUNK_DURATION)
          (min CHUNK_DURATION (duration - (i : ℚ) * CHUNK_DURATION)))
        = WhisperOutcome.raised e →
      chunk_text duration buf whisper_attempt language i
        = error_marker (buf ((i : ℚ) * CHUNK_DURATION)
            (min CHUNK_DURATION (duration - (i : ℚ) * CHUNK_DURATION))) e) := by
  constructor
  · unfold _transcribe_in_chunks
    rw [List.range_eq_range']
    rw [transcribe_chunks_loop_ok duration buf whisper_attempt language
      (num_chunks duration) (num_chunks duration) 0 ""
      (by omega) (num_chunks_pos duration hd)]
    rw [String.empty_append, ← List.range_eq_range']
  · intro i e h
    simp [chunk_text, _whisper_transcribe_with_language, h]

/-- Witness for C1: for a concrete 1200-second file where extraction succeeds
and the model raises on every chunk, the executor completes with a transcript,
and chunk 0 carries the inline error marker. -/
theorem chunk_model_errors_recovered_witness :
    (0 : ℚ) < 1200 ∧
    _transcribe_in_chunks 1200 (fun _ _ => Except.ok [7])
        (fun _ => WhisperOutcome.raised "model error") "en"
      = Except.ok (join_with_separator "\n\n"
          ((List.range (num_chunks 1200)).map
            (chunk_text 1200 (fun _ _ => [7])
              (fun _ => WhisperOutcome.raised "model error") "en"))) ∧
    chunk_text 1200 (fun _ _ => [7]) (fun _ => WhisperOutcome.raised "model error") "en" 0
      = error_marker [7] "model error" := by
  refine ⟨by norm_num, ?_, ?_⟩
  · exact (chunk_model_errors_recovered 1200 (by norm_num) (fun _ _ => [7])
      (fun _ => WhisperOutcome.raised "model error") "en").1
  · exact (chunk_model_errors_recovered 1200 (by norm_num) (fun _ _ => [7])
      (fun _ => WhisperOutcome.raised "model error") "en").2 0 "model error" rfl

/-- C6: for a positive duration the executor produces exactly
`ceil(duration / 600)` chunks, processed in index order; chunk `i` covers the
window starting at `i * 600` seconds of length `min 600 (duration - i * 600)`;
the chunk texts are appended in order with a blank-line separator after every
chunk except the final one. -/
theorem chunking_structure (duration : ℚ) (hd : 0 < duration)
    (buf : ℚ → ℚ → PCM) (whisper_attempt : PCM → WhisperOutcome) (language : String) :
    num_chunks duration = (⌈duration / 600⌉).toNat ∧
    0 < num_chunks duration ∧
    (∀ i : ℕ, chunk_text duration buf whisper_attempt language i
      = _whisper_transcribe_with_language whisper_attempt
          (buf ((i : ℚ) * 600) (min 600 (duration - (i : ℚ) * 600))) language) ∧
    _transcribe_in_chunks duration (fun s l => Except.ok (buf s l)) whisper_attempt language
      = Except.ok (join_with_separator "\n\n"
          ((List.range (num_chunks duration)).map
            (chunk_text duration buf whisper_attempt language))) := by
  refine ⟨rfl, num_chunks_pos duration hd, fun i => rfl, ?_⟩
  exact (chunk_model_errors_recovered duration hd buf whisper_attempt language).1

/-- Witness for C6: a 1500-second file yields exactly 3 chunks; with a model
that returns the text `T` for every window, the transcript is the three chunk
texts joined by blank-line separators, and the final chunk has length 300. -/
theorem chunking_structure_witness :
    (0 : ℚ) < 1500 ∧
    num_chunks 1500 = 3 ∧
    min (600 : ℚ) (1500 - 2 * 600) = 300 ∧
    _transcribe_in_chunks 1500 (fun _ _ => Except.ok [])
        (fun _ => WhisperOutcome.ok "T") "en"
      = Except.ok "T\n\nT\n\nT" := by
  refine ⟨by norm_num, num_chunks_1500, by norm_num, ?_⟩
  have h := (chunking_structure 1500 (by norm_num) (fun _ _ => [])
    (fun _ => WhisperOutcome.ok "T") "en").2.2.2
  rw [h, num_chunks_1500]
  rfl

/-- Counterexample for C2: a failure to extract the language-detection sample
is not recovered — the worker aborts the job with an error signal instead of
falling back to the default language. -/
theorem detection_extract_failure_aborts_counterexample :
    worker_run (Except.ok 100) (fun _ _ => Except.error "boom")
      (fun _ => Except.ok "es") (fun _ => WhisperOutcome.ok "hello")
      = RunOutcome.errored
          "Language detection failed: Language detection failed: Audio extraction failed: boom" := by
  rfl

/-- C2 amended: once the detection sample has been extracted successfully, a
failure of the Whisper language-detection call itself (including Whisper being
unavailable) falls back to the default language code `en`, and the job
proceeds to the transcription step; but a failure to extract the detection
sample aborts the job (see the counterexample). -/
theorem detection_fallback_after_extraction (duration : ℚ)
    (ffmpeg_run : ℚ → ℚ → Except String PCM)
    (whisper_detect_attempt : PCM → Except String String) (buf : PCM)
    (hex : ffmpeg_run (detection_sample_window duration).1
        (detection_sample_window duration).2 = Except.ok buf) :
    _detect_language duration ffmpeg_run whisper_detect_attempt
      = Except.ok (_whisper_detect_language (whisper_detect_attempt buf)) ∧
    (∀ e, whisper_detect_attempt buf = Except.error e →
      _detect_language duration ffmpeg_run whisper_detect_attempt = Except.ok "en") ∧
    (∀ whisper_transcribe_attempt : PCM → WhisperOutcome,
      worker_run (Except.ok duration) ffmpeg_run whisper_detect_attempt
          whisper_transcribe_attempt
        = match _transcribe_in_chunks duration ffmpeg_run whisper_transcribe_attempt
              (_whisper_detect_language (whisper_detect_attempt buf)) with
          | Except.error e => RunOutcome.errored ("Transcription processing failed: " ++ e)
          | Except.ok transcript => RunOutcome.finished transcript) := by
  have hdet : _detect_language duration ffmpeg_run whisper_detect_attempt
      = Except.ok (_whisper_detect_language (whisper_detect_attempt buf)) := by
    unfold _detect_language _extract_audio_chunk
    rw [hex]
  refine ⟨hdet, ?_, ?_⟩
  · intro e he
    rw [hdet]
    simp [_whisper_detect_language, he]
  · intro whisper_transcribe_attempt
    have hstep : worker_run (Except.ok duration) ffmpeg_run whisper_detect_attempt
        whisper_transcribe_attempt
        = match _detect_language duration ffmpeg_run whisper_detect_attempt with
          | Except.error e => RunOutcome.errored ("Language detection failed: " ++ e)
          | Except.ok language =>
            match _transcribe_in_chunks duration ffmpeg_run whisper_transcribe_attempt
                language with
            | Except.error e => RunOutcome.errored ("Transcription processing failed: " ++ e)
            | Except.ok transcript => RunOutcome.finished transcript := rfl
    rw [hstep, hdet]

/-- Witness for C2: with a concrete 100-second file whose sample extraction
succeeds and whose Whisper detection call raises, detection returns the
fallback language `en`. -/
theorem detection_fallback_after_extraction_witness :
    _detect_language 100 (fun _ _ => Except.ok [1, 2])
      (fun _ => Except.error "model crash") = Except.ok "en" := by
  exact (detection_fallback_after_extraction 100 (fun _ _ => Except.ok [1, 2])
    (fun _ => Except.error "model crash") [1, 2] rfl).2.1 "model crash" rfl

/-!
Part 4 — Model download worker, from `src/app/workers/model_download_worker.py`.

The network stream is embedded as the list of body chunks the response
yields; the cooperative cancellation flag `self._cancelled` is embedded as a
function giving the value the worker observes when it checks the flag at the
start of iteration `i`.  The destination file is the `file` field of the
result: `none` models no file on disk.  SHA-256 itself is an external
library; it is abstracted as a function from the hashed bytes to a hex
digest string.
-/

/-- Python `str.lower`, as applied to hex digest strings (ASCII). -/
def str_lower (s : String) : String := ⟨s.data.map Char.toLower⟩

/-- A fixed-size read loop (`iter(lambda: f.read(block_size), b"")`): splits
the file content into consecutive blocks of `block_size` bytes (the last
block may be shorter).  For a positive block size the blocks concatenate back
to the content. -/
def read_blocks (block_size : ℕ) : List ℕ → List (List ℕ)
  | [] => []
  | x :: xs =>
    ((x :: xs).take block_size) :: read_blocks block_size (xs.drop (block_size - 1))
termination_by l => l.length
decreasing_by
  simp only [List.length_drop, List.length_cons]
  omega

/-- Helper: streaming the file through fixed-size reads feeds the hash exactly
the file content — the blocks join back to the content. -/
theorem read_blocks_join (block_size : ℕ) (hbs : 0 < block_size) (l : List ℕ) :
    (read_blocks block_size l).flatten = l := by
  have H : ∀ (fuel : ℕ) (l : List ℕ), l.length ≤ fuel →
      (read_blocks block_size l).flatten = l := by
    intro fuel
    induction fuel with
    | zero =>
      intro l hl
      have hnil : l = [] := List.length_eq_zero.mp (Nat.le_zero.mp hl)
      subst hnil
      simp [read_blocks]
    | succ n ih =>
      intro l hl
      match l with
      | [] => simp [read_blocks]
      | x :: xs =>
        rw [read_blocks]
        rw [List.flatten_cons]
        rw [ih (xs.drop (block_size - 1)) (by simp only [List.length_drop]; simp at hl; omega)]
        obtain ⟨b, rfl⟩ : ∃ b, block_size = b + 1 := ⟨block_size - 1, by omega⟩
        rw [List.take_succ_cons]
        have hb : b + 1 - 1 = b := by omega
        rw [hb, List.cons_append, List.take_append_drop]
  exact H l.length l le_rfl

/-- Result of the body-streaming loop of `_download_file`
(model_download_worker.py lines 110-143): either the cancellation flag was
observed set at some chunk boundary, or the full body was written. -/
inductive StreamResult where
  | cancelledMidStream
  | body (content : List ℕ)
deriving DecidableEq, Repr

/-- The chunk loop of `_download_file` (model_download_worker.py lines
110-143): on each chunk the cancellation flag is checked first; if set, the
loop stops (the caller deletes the partial file); otherwise the chunk is
appended to the destination file.  Progress-signal emission (lines 122-143)
has no effect on the file or the outcome and is not modelled. -/
def download_loop (cancel_flag : ℕ → Bool) :
    List (List ℕ) → ℕ → List ℕ → StreamResult
  | [], _, written => StreamResult.body written
  | _chunk :: rest, i, written =>
    if cancel_flag i then StreamResult.cancelledMidStream
    else download_loop cancel_flag rest (i + 1) (written ++ _chunk)

/-- Terminal outcome of a download: the `download_cancelled` signal, or the
`download_completed` signal with its success flag and message. -/
inductive DownloadOutcome where
  | cancelled
  | completed (success : Bool) (message : String)
deriving DecidableEq, Repr

/-- Post-run state of `_download_file`: the destination file on disk (`none`
when no file is left) and the reported outcome. -/
structure DownloadEnd where
  file : Option (List ℕ)
  outcome : DownloadOutcome
deriving DecidableEq, Repr

/-- The method `_verify_sha256` (model_download_worker.py lines 182-210):
reads the file in 4096-byte blocks, feeds them to SHA-256, and compares the
hex digest to the expected checksum after lowercasing both sides; with no
expected checksum it returns `True`. -/
def _verify_sha256 (sha256 : List ℕ → String) (content : List ℕ)
    (expected_sha256 : Option String) : Bool :=
  match expected_sha256 with
  | none => true
  | some expected =>
    str_lower (sha256 ((read_blocks 4096 content).flatten)) == str_lower expected

/-- The method `_download_file` (model_download_worker.py lines 84-180): a
non-200 status raises and the handler of lines 170-180 deletes any partial
file and reports failure; cancellation mid-stream deletes the partial file
and reports cancellation (lines 111-117); after a complete stream, a present
checksum is verified — a mismatch deletes the file and reports an
integrity-check failure (lines 147-162), otherwise success is reported.
Exact message texts (which embed the file name) are abbreviated. -/
def _download_file (status_code : ℕ) (body_chunks : List (List ℕ))
    (cancel_flag : ℕ → Bool) (expected_sha256 : Option String)
    (sha256 : List ℕ → String) : DownloadEnd :=
  if status_code ≠ 200 then
    { file := none
      outcome := DownloadOutcome.completed false "Download failed: HTTP error" }
  else
    match download_loop cancel_flag body_chunks 0 [] with
    | StreamResult.cancelledMidStream =>
      { file := none, outcome := DownloadOutcome.cancelled }
    | StreamResult.body content =>
      match expected_sha256 with
      | some _ =>
        if _verify_sha256 sha256 content expected_sha256 then
          { file := some content
            outcome := DownloadOutcome.completed true "Successfully downloaded and verified" }
        else
          { file := none
            outcome := DownloadOutcome.completed false
              "Download failed: File integrity check failed" }
      | none =>
        { file := some content
          outcome := DownloadOutcome.completed true "Successfully downloaded" }

/-- Helper: if the cancellation flag is observed set at some chunk boundary
within the stream, the loop stops with a cancellation. -/
theorem download_loop_cancelled (cancel_flag : ℕ → Bool) :
    ∀ (chunks : List (List ℕ)) (i0 : ℕ) (written : List ℕ),
      (∃ j, j < chunks.length ∧ cancel_flag (i0 + j) = true) →
      download_loop cancel_flag chunks i0 written = StreamResult.cancelledMidStream := by
  intro chunks
  induction chunks with
  | nil =>
    intro i0 written h
    obtain ⟨j, hj, _⟩ := h
    simp at hj
  | cons c rest ih =>
    intro i0 written h
    obtain ⟨j, hj, hflag⟩ := h
    by_cases h0 : cancel_flag i0
    · simp [download_loop, h0]
    · have hj0 : j ≠ 0 := by
        intro hje
        subst hje
        simp at hflag
        exact h0 hflag
      obtain ⟨j2, rfl⟩ : ∃ j2, j = j2 + 1 := ⟨j - 1, by omega⟩
      simp only [download_loop, h0, if_false, Bool.false_eq_true]
      exact ih (i0 + 1) (written ++ c)
        ⟨j2, by simp at hj; omega, by rw [show i0 + 1 + j2 = i0 + (j2 + 1) by omega]; exact hflag⟩

/-- C7: if the cooperative cancellation flag is set during a download (observed
at some chunk boundary of the stream), the worker stops at that boundary,
deletes the partially written destination file — leaving no file — and
reports cancellation, not failure. -/
theorem download_cancellation_cleans_up (body_chunks : List (List ℕ))
    (cancel_flag : ℕ → Bool) (expected_sha256 : Option String)
    (sha256 : List ℕ → String) (k : ℕ)
    (hk : k < body_chunks.length) (hflag : cancel_flag k = true) :
    _download_file 200 body_chunks cancel_flag expected_sha256 sha256
      = { file := none, outcome := DownloadOutcome.cancelled } := by
  unfold _download_file
  rw [if_neg (by norm_num)]
  rw [download_loop_cancelled cancel_flag body_chunks 0 []
    ⟨k, hk, by simpa using hflag⟩]

/-- Witness for C7: a three-chunk stream whose cancellation flag becomes set
after the first chunk ends with no file on disk and a cancellation report. -/
theorem download_cancellation_cleans_up_witness :
    _download_file 200 [[1], [2], [3]] (fun i => decide (1 ≤ i)) none (fun _ => "")
      = { file := none, outcome := DownloadOutcome.cancelled } := by
  exact download_cancellation_cleans_up [[1], [2], [3]] (fun i => decide (1 ≤ i)) none
    (fun _ => "") 1 (by decide) (by decide)

/-!
Part 5 — Whisper model manager, from
`src/app/services/whisper_model_manager.py`.

The models configuration (`whisper_models.json`, a dict from model id to a
dict of optional fields) is embedded as a lookup function returning an
optional record of those fields; the file system is embedded as a function
from path to optional file content (`none`: the file does not exist, which
also covers an `OSError` from `stat`).
-/

/-- One entry of the models configuration: every field is optional, as in the
JSON dict. -/
structure ModelInfo where
  display_name : Option String := none
  description : Option String := none
  size : Option String := none
  size_mb : Option ℕ := none
  filename : Option String := none
  download_url : Option String := none
  sha256 : Option String := none
deriving DecidableEq, Repr

/-- The manager state: the models directory and the loaded configuration. -/
structure WhisperModelManager where
  _models_dir : String
  whisper_models : String → Option ModelInfo

/-- File system abstraction: path to optional file content. -/
abbrev FileSystem := String → Option (List ℕ)

/-- The method `get_model_info` (whisper_model_manager.py lines 139-142). -/
def get_model_info (mgr : WhisperModelManager) (model_id : String) :
    Option ModelInfo :=
  mgr.whisper_models model_id

/-- The file-name resolution used by both `is_model_downloaded` (line 159)
and `get_model_download_info` (line 240): the configured `filename` or the
default `ggml-(model_id).bin`. -/
def model_filename (model_id : String) (info : ModelInfo) : String :=
  info.filename.getD ("ggml-" ++ model_id ++ ".bin")

/-- The model file path `self._models_dir / filename`. -/
def model_file_path (mgr : WhisperModelManager) (model_id : String)
    (info : ModelInfo) : String :=
  mgr._models_dir ++ "/" ++ model_filename model_id info

/-- The method `is_model_downloaded` (whisper_model_manager.py lines
144-170): unknown id fails closed; otherwise the local file must exist and
its size must strictly exceed 1 MiB.  A `stat` failure (`OSError`, line 167)
also yields `False`, covered here by the file being absent. -/
def is_model_downloaded (mgr : WhisperModelManager) (fs : FileSystem)
    (model_id : String) : Bool :=
  match get_model_info mgr model_id with
  | none => false
  | some info =>
    match fs (model_file_path mgr model_id info) with
    | none => false
    | some content => decide (1024 * 1024 < content.length)

/-- The record returned by `get_model_download_info`
(whisper_model_manager.py lines 243-251). -/
structure DownloadInfo where
  model_id : String
  download_url : Option String
  destination_path : String
  filename : String
  size_mb : ℕ
  sha256 : Option String
  display_name : String
deriving DecidableEq, Repr

/-- The method `get_model_download_info` (whisper_model_manager.py lines
224-251): `none` for an unknown id, otherwise the download descriptor. -/
def get_model_download_info (mgr : WhisperModelManager) (model_id : String) :
    Option DownloadInfo :=
  match get_model_info mgr model_id with
  | none => none
  | some info =>
    some { model_id := model_id
           download_url := info.download_url
           destination_path := model_file_path mgr model_id info
           filename := model_filename model_id info
           size_mb := info.size_mb.getD 0
           sha256 := info.sha256
           display_name := info.display_name.getD model_id }

/-- The method `verify_model_integrity` (whisper_model_manager.py lines
253-289): unknown id yields `False`; with no checksum on record it degrades
to `is_model_downloaded`; otherwise the file must exist and its SHA-256 —
computed over 4096-byte streaming reads (lines 279-282) — must equal the
expected checksum after lowercasing both hex strings (line 285).  A raised
exception during hashing returns `False` (lines 287-289); the abstract hash
function is total, so that branch is unreachable here. -/
def verify_model_integrity (mgr : WhisperModelManager) (fs : FileSystem)
    (sha256 : List ℕ → String) (model_id : String) : Bool :=
  match get_model_download_info mgr model_id with
  | none => false
  | some download_info =>
    match download_info.sha256 with
    | none => is_model_downloaded mgr fs model_id
    | some expected_sha256 =>
      match fs download_info.destination_path with
      | none => false
      | some content =>
        str_lower (sha256 ((read_blocks 4096 content).flatten)) == str_lower expected_sha256

/-- C8: with a checksum on record and the file present,
`verify_model_integrity` recomputes the SHA-256 over fixed-size streaming
reads of exactly the file content and returns `true` precisely when the
digest matches the expected checksum case-insensitively; with no checksum on
record it returns the result of the is-downloaded (presence/size) check. -/
theorem verify_integrity_spec (mgr : WhisperModelManager) (fs : FileSystem)
    (sha256 : List ℕ → String) (model_id : String) (info : ModelInfo)
    (hinfo : mgr.whisper_models model_id = some info) :
    (∀ expected content,
      info.sha256 = some expected →
      fs (model_file_path mgr model_id info) = some content →
      ((read_blocks 4096 content).flatten = content ∧
       (verify_model_integrity mgr fs sha256 model_id = true ↔
         str_lower (sha256 content) = str_lower expected))) ∧
    (info.sha256 = none →
      verify_model_integrity mgr fs sha256 model_id
        = is_model_downloaded mgr fs model_id) := by
  constructor
  · intro expected content hsha hfile
    have hjoin : (read_blocks 4096 content).flatten = content :=
      read_blocks_join 4096 (by norm_num) content
    refine ⟨hjoin, ?_⟩
    unfold verify_model_integrity get_model_download_info get_model_info
    rw [hinfo]
    simp only [hsha, hfile, hjoin]
    exact beq_iff_eq
  · intro hsha
    unfold verify_model_integrity get_model_download_info get_model_info
    rw [hinfo]
    simp only [hsha]

/-- Witness for C8: a concrete one-model catalog whose digest matches the
expected checksum up to case gives a successful verification, and the
streamed blocks join back to the file content; removing the checksum from the
record degrades verification to the is-downloaded check. -/
theorem verify_integrity_spec_witness :
    verify_model_integrity
      { _models_dir := "models"
        whisper_models := fun id =>
          if id = "tiny" then some { filename := some "f.bin", sha256 := some "AB12" }
          else none }
      (fun p => if p = "models/f.bin" then some [1, 2, 3] else none)
      (fun _ => "ab12") "tiny" = true ∧
    (read_blocks 4096 [1, 2, 3]).flatten = [1, 2, 3] ∧
    verify_model_integrity
      { _models_dir := "models"
        whisper_models := fun id =>
          if id = "tiny" then some { filename := some "f.bin" } else none }
      (fun p => if p = "models/f.bin" then some [1, 2, 3] else none)
      (fun _ => "ab12") "tiny"
      = is_model_downloaded
          { _models_dir := "models"
            whisper_models := fun id =>
              if id = "tiny" then some { filename := some "f.bin" } else none }
          (fun p => if p = "models/f.bin" then some [1, 2, 3] else none) "tiny" := by
  refine ⟨?_, ?_, ?_⟩
  · exact ((verify_integrity_spec _ _ (fun _ => "ab12") "tiny"
      { filename := some "f.bin", sha256 := some "AB12" } (by simp)).1
      "AB12" [1, 2, 3] rfl (by simp [model_file_path, model_filename])).2.mpr (by decide)
  · exact ((verify_integrity_spec
      { _models_dir := "models"
        whisper_models := fun id =>
          if id = "tiny" then some { filename := some "f.bin", sha256 := some "AB12" }
          else none }
      (fun p => if p = "models/f.bin" then some [1, 2, 3] else none)
      (fun _ => "ab12") "tiny"
      { filename := some "f.bin", sha256 := some "AB12" } (by simp)).1
      "AB12" [1, 2, 3] rfl (by simp [model_file_path, model_filename])).1
  · exact (verify_integrity_spec _ _ (fun _ => "ab12") "tiny"
      { filename := some "f.bin" } (by simp)).2 rfl

/-- C9: the is-downloaded (usability) check fails closed for every unknown
model id; for a known id it reports the model usable exactly when the local
file exists and its size strictly exceeds 1 MiB (1048576 bytes) — in
particular a file of exactly 1 MiB or less, whatever its content, is
reported not usable. -/
theorem is_model_downloaded_spec :
    (∀ (mgr : WhisperModelManager) (fs : FileSystem) (model_id : String),
      mgr.whisper_models model_id = none →
      is_model_downloaded mgr fs model_id = false) ∧
    (∀ (mgr : WhisperModelManager) (fs : FileSystem) (model_id : String)
        (info : ModelInfo),
      mgr.whisper_models model_id = some info →
      (is_model_downloaded mgr fs model_id = true ↔
        ∃ content, fs (model_file_path mgr model_id info) = some content ∧
          1024 * 1024 < content.length)) ∧
    (∀ (mgr : WhisperModelManager) (fs : FileSystem) (model_id : String)
        (info : ModelInfo) (content : List ℕ),
      mgr.whisper_models model_id = some info →
      fs (model_file_path mgr model_id info) = some content →
      content.length ≤ 1024 * 1024 →
      is_model_downloaded mgr fs model_id = false) := by
  refine ⟨?_, ?_, ?_⟩
  · intro mgr fs model_id h
    unfold is_model_downloaded get_model_info
    rw [h]
  · intro mgr fs model_id info h
    unfold is_model_downloaded get_model_info
    rw [h]
    cases hfs : fs (model_file_path mgr model_id info) with
    | none => simp [hfs]
    | some content => simp [hfs]
  · intro mgr fs model_id info content h hfs hlen
    unfold is_model_downloaded get_model_info
    rw [h]
    simp [hfs]
    omega

/-- Witness for C9: an unknown id is not usable; a known id with the file
absent is not usable; a known id whose file is exactly 1 MiB (1048576 zero
bytes) is not usable. -/
theorem is_model_downloaded_spec_witness :
    is_model_downloaded
      { _models_dir := "models", whisper_models := fun _ => none }
      (fun _ => none) "mystery" = false ∧
    is_model_downloaded
      { _models_dir := "models"
        whisper_models := fun id => if id = "tiny" then some {} else none }
      (fun _ => none) "tiny" = false ∧
    is_model_downloaded
      { _models_dir := "models"
        whisper_models := fun id => if id = "tiny" then some {} else none }
      (fun _ => some (List.replicate (1024 * 1024) 0)) "tiny" = false := by
  refine ⟨?_, ?_, ?_⟩
  · exact is_model_downloaded_spec.1 _ (fun _ => none) "mystery" rfl
  · have h := (is_model_downloaded_spec.2.1
      { _models_dir := "models"
        whisper_models := fun id => if id = "tiny" then some {} else none }
      (fun _ => none) "tiny" {} (by simp))
    rcases hval : is_model_downloaded
      { _models_dir := "models"
        whisper_models := fun id => if id = "tiny" then some {} else none }
      (fun _ => none) "tiny" with _ | _
    · rfl
    · exfalso
      obtain ⟨content, hc, _⟩ := h.mp hval
      simp at hc
  · exact is_model_downloaded_spec.2.2 _ _ "tiny" {} (List.replicate (1024 * 1024) 0)
      (by simp) rfl (by rw [List.length_replicate])

end AudioTransLocal
